import Mathlib

/-!
Shallow embedding of the token-exchange pipeline of the `info_class` backend
(`src/backend/auth/jwt_manager.py`, `role_manager.py`, `firebase_validator.py`,
`src/backend/config/settings.py`, `src/backend/api/auth_routes.py`).

Times are modelled as integer Unix seconds.  Python strings are modelled by
Lean `String`; `str.lower` is modelled per character (faithful for ASCII,
which is all the policy strings involved use), and `in` / `endswith` are
modelled by explicit character-list scans below.
-/

namespace InfoClass

/-- Models Python `str.lower` on one character (ASCII range, as used by the
policy strings of this code base). -/
def pyCharLower (c : Char) : Char :=
  if 65 ≤ c.toNat ∧ c.toNat ≤ 90 then Char.ofNat (c.toNat + 32) else c

/-- Models Python `str.lower`. -/
def pyLower (s : String) : String :=
  ⟨s.data.map pyCharLower⟩

/-- `beginsWith big small` is true when `small` is an initial segment of `big`
(helper for the substring scan modelling Python `in`). -/
def beginsWith : List Char → List Char → Bool
  | _, [] => true
  | [], _ :: _ => false
  | b :: bs, s :: ss => b == s && beginsWith bs ss

/-- `containsSeq small big` models Python `small in big` on strings, scanning
`big` left to right. -/
def containsSeq (small : List Char) : List Char → Bool
  | [] => beginsWith [] small
  | b :: rest => beginsWith (b :: rest) small || containsSeq small rest

/-- Models Python `sub in s` (substring test). -/
def strContains (s sub : String) : Bool :=
  containsSeq sub.data s.data

/-- Models Python `s.endswith(tail)`. -/
def pyEndsWith (s tail : String) : Bool :=
  beginsWith s.data.reverse tail.data.reverse

/-! ## Data model (`src/backend/auth/models.py`) -/

/-- `UserRole` constants of `models.py`. -/
def UserRole.ADMIN : String := "admin"

/-- `UserRole.STUDENT` constant of `models.py`. -/
def UserRole.STUDENT : String := "student"

/-- `UserRole.GUEST` constant of `models.py`. -/
def UserRole.GUEST : String := "guest"

/-- `UserInfo` of `models.py`: identity extracted from a Firebase token. -/
structure UserInfo where
  uid : String
  email : String
  name : Option String := none
  picture : Option String := none
  email_verified : Bool := true
  deriving DecidableEq

/-- `UserWithRole` of `models.py`: `UserInfo` plus role and permissions. -/
structure UserWithRole where
  uid : String
  email : String
  name : Option String := none
  picture : Option String := none
  email_verified : Bool := true
  role : String
  permissions : List String := []
  deriving DecidableEq

/-! ## Settings (`src/backend/config/settings.py`)

`ALLOWED_EMAIL_DOMAIN` is a hard-coded class constant in the source; the
environment-derived values (`DEBUG`, `SECRET_KEY`, `ACCESS_TOKEN_EXPIRE_HOURS`)
and the runtime-mutable `ADMIN_EMAILS` list are fields. -/

/-- `Settings.ALLOWED_EMAIL_DOMAIN` (static constant in `settings.py`). -/
def ALLOWED_EMAIL_DOMAIN : String := "@pocheonil.hs.kr"

/-- Default `Settings.ADMIN_EMAILS` list from `settings.py`. -/
def defaultAdminEmails : List String := ["admin@pocheonil.hs.kr"]

/-- The environment-derived and runtime-mutable parts of `Settings`. -/
structure Settings where
  DEBUG : Bool := false
  SECRET_KEY : String
  ACCESS_TOKEN_EXPIRE_HOURS : Int := 24
  ADMIN_EMAILS : List String := defaultAdminEmails
  deriving DecidableEq

/-- `Settings.is_admin_email`: case-insensitive membership in the admin list. -/
def Settings.is_admin_email (s : Settings) (email : String) : Bool :=
  (s.ADMIN_EMAILS.map pyLower).contains (pyLower email)

/-- `Settings.is_allowed_domain`: case-insensitive suffix match against the
configured domain. -/
def Settings.is_allowed_domain (_ : Settings) (email : String) : Bool :=
  pyEndsWith (pyLower email) (pyLower ALLOWED_EMAIL_DOMAIN)

/-! ## Role manager (`src/backend/auth/role_manager.py`) -/

/-- `RoleManager.ROLE_PERMISSIONS`, as the partial map the Python dict is. -/
def ROLE_PERMISSIONS (role : String) : Option (List String) :=
  if role = UserRole.ADMIN then
    some ["read_all_files", "upload_files", "delete_files", "manage_users",
          "view_submissions", "manage_subjects", "system_admin"]
  else if role = UserRole.STUDENT then
    some ["read_assigned_files", "download_files", "upload_submissions",
          "view_own_submissions"]
  else if role = UserRole.GUEST then
    some ["read_public_info"]
  else none

/-- `RoleManager.determine_user_role`. -/
def determine_user_role (s : Settings) (user : UserInfo) : String :=
  let email := pyLower user.email
  if s.is_admin_email email then UserRole.ADMIN
  else if s.is_allowed_domain email then UserRole.STUDENT
  else UserRole.GUEST

/-- `RoleManager.get_role_permissions` (`dict.get(role, [])`). -/
def get_role_permissions (role : String) : List String :=
  (ROLE_PERMISSIONS role).getD []

/-- `RoleManager.create_user_with_role`. -/
def create_user_with_role (s : Settings) (user : UserInfo) : UserWithRole :=
  let role := determine_user_role s user
  { uid := user.uid, email := user.email, name := user.name,
    picture := user.picture, email_verified := user.email_verified,
    role := role, permissions := get_role_permissions role }

/-- `RoleManager.add_admin_email`: append the lower-cased email unless some
entry already matches case-insensitively (the list is `settings.ADMIN_EMAILS`;
modelled functionally, old list in, new list out). -/
def add_admin_email (emails : List String) (email : String) : List String :=
  if (emails.map pyLower).contains (pyLower email) then emails
  else emails ++ [pyLower email]

/-- `RoleManager.remove_admin_email`: drop the first case-insensitive match
and report whether one was found (new list, removed flag). -/
def remove_admin_email : List String → String → List String × Bool
  | [], _ => ([], false)
  | a :: rest, email =>
    if pyLower a = pyLower email then (rest, true)
    else
      let r := remove_admin_email rest email
      (a :: r.1, r.2)

/-! ## JWT manager (`src/backend/auth/jwt_manager.py`)

The `jwt` library (PyJWT, version 2.x: `jwt.encode` returning `str` and the
keyword `algorithms=` match that line) is the external collaborator here; a
token is modelled as either a payload signed under some key, or a malformed
string.  `jwt.decode` with the options passed by `verify_access_token`
(`verify_signature`, `verify_exp`, `verify_iat`; the `require_exp`/`require_iat`
keys are not consulted by PyJWT 2.x, whose `require` list defaults to empty)
checks the signature first and then, when an `exp` claim is present, rejects
the token as expired when `exp ≤ now` (zero leeway).  Claim presence is
modelled by `Option` fields of the decoded payload dict. -/

/-- A decoded JWT payload dict; `none` means the claim is absent. -/
structure PayloadDict where
  sub : Option String := none
  email : Option String := none
  name : Option String := none
  role : Option String := none
  permissions : Option (List String) := none
  iat : Option Int := none
  exp : Option Int := none
  iss : Option String := none
  deriving DecidableEq

/-- A JWT token string: either the encoding of a payload under a signing key,
or a string that does not parse as a JWT at all. -/
inductive Token where
  | signed (payload : PayloadDict) (key : String)
  | malformed
  deriving DecidableEq

/-- Errors of the PyJWT `decode` call as caught by `verify_access_token`
(`ExpiredSignatureError`, and the `InvalidTokenError` family with its
message). -/
inductive JwtLibError where
  | expiredSignature
  | invalidToken (msg : String)
  deriving DecidableEq

/-- Models `jwt.decode(token, key, algorithms=[...], options={...})` as called
in `verify_access_token`: signature check first, then expiry (when `exp` is
present) against the current time `now`. -/
def jwtDecode (tok : Token) (key : String) (now : Int) : Except JwtLibError PayloadDict :=
  match tok with
  | .malformed => .error (.invalidToken "Not enough segments")
  | .signed p k =>
    if k ≠ key then .error (.invalidToken "Signature verification failed")
    else
      match p.exp with
      | some e => if e ≤ now then .error .expiredSignature else .ok p
      | none => .ok p

/-- The `ValueError`s raised by `verify_access_token`: "Token has expired",
"Invalid token: ..." and the wrapped "Token verification failed: ...". -/
inductive TokenError where
  | expired
  | invalid (msg : String)
  | failed (msg : String)
  deriving DecidableEq

/-- The first of the five required claims `['sub', 'email', 'role', 'exp',
'iat']` missing from the payload, if any (the loop in
`verify_access_token`). -/
def requiredClaimMissing (p : PayloadDict) : Option String :=
  if p.sub.isNone then some "sub"
  else if p.email.isNone then some "email"
  else if p.role.isNone then some "role"
  else if p.exp.isNone then some "exp"
  else if p.iat.isNone then some "iat"
  else none

/-- `JWTManager.verify_access_token`.  The `ValueError`s raised by the manual
claim and issuer checks inside the `try` block are caught by the generic
handler and re-raised wrapped in "Token verification failed: ...". -/
def verify_access_token (s : Settings) (tok : Token) (now : Int) :
    Except TokenError PayloadDict :=
  match jwtDecode tok s.SECRET_KEY now with
  | .error .expiredSignature => .error .expired
  | .error (.invalidToken m) => .error (.invalid ("Invalid token: " ++ m))
  | .ok p =>
    match requiredClaimMissing p with
    | some c => .error (.failed ("Token verification failed: Missing required claim: " ++ c))
    | none =>
      if p.iss ≠ some "info-class-api" then
        .error (.failed "Token verification failed: Invalid token issuer")
      else .ok p

/-- `JWTManager.create_access_token` at current time `now` (seconds):
`expires_at = now + timedelta(hours=ACCESS_TOKEN_EXPIRE_HOURS)`, payload with
all claims present, signed under `settings.SECRET_KEY`. -/
def create_access_token (s : Settings) (user : UserWithRole) (now : Int) :
    Token × Int :=
  let expires_at := now + s.ACCESS_TOKEN_EXPIRE_HOURS * 3600
  let payload : PayloadDict :=
    { sub := some user.uid, email := some user.email, name := user.name,
      role := some user.role, permissions := some user.permissions,
      iat := some now, exp := some expires_at, iss := some "info-class-api" }
  (Token.signed payload s.SECRET_KEY, expires_at)

/-- `JWTManager.decode_token_without_verification`: structural decode only,
no signature or expiry check. -/
def decode_token_without_verification (tok : Token) : Option PayloadDict :=
  match tok with
  | .signed p _ => some p
  | .malformed => none

/-- `JWTManager.get_token_expiration`: the `exp` claim of the unverified
decode, if any. -/
def get_token_expiration (tok : Token) : Option Int :=
  match decode_token_without_verification tok with
  | some p => p.exp
  | none => none

/-- `JWTManager.refresh_token_if_needed` at current time `now`: issue a fresh
token when the unverified expiry is within `refresh_threshold_hours` of now,
else (or when no expiry can be extracted) do nothing. -/
def refresh_token_if_needed (s : Settings) (tok : Token) (user : UserWithRole)
    (now : Int) (refresh_threshold_hours : Int) : Option (Token × Int) :=
  match get_token_expiration tok with
  | none => none
  | some e =>
    if e ≤ now + refresh_threshold_hours * 3600 then
      some (create_access_token s user now)
    else none

/-! ## Firebase validator (`src/backend/auth/firebase_validator.py`)

The Firebase Admin SDK is the external identity provider; the outcome of
`firebase_config.verify_id_token` is modelled as either one of its three
typed rejections (with the exception message) or a decoded claims dict.
Fields read with `dict.get` are `Option`s (with `email_verified` defaulting
to `False`). -/

/-- The decoded Firebase token dict, fields as read by `validate_token`. -/
structure DecodedToken where
  uid : Option String := none
  email : Option String := none
  name : Option String := none
  display_name : Option String := none
  picture : Option String := none
  email_verified : Option Bool := none
  deriving DecidableEq

/-- Outcome of the provider call `firebase_config.verify_id_token`. -/
inductive FirebaseResult where
  | invalidTok (msg : String)
  | expiredTok (msg : String)
  | revokedTok (msg : String)
  | decoded (d : DecodedToken)
  deriving DecidableEq

/-- The mock identity returned in development mode when Firebase is not
initialized. -/
def mockUserInfo : UserInfo :=
  { uid := "dev_user_123", email := "admin@pocheonil.hs.kr",
    name := some "개발자 계정", picture := none, email_verified := true }

/-- Python `a or b` on two optional strings (`decoded_token.get('name') or
decoded_token.get('display_name')`): an absent or empty first value falls
through to the second. -/
def pyOrStr (a b : Option String) : Option String :=
  match a with
  | some v => if v = "" then b else some v
  | none => b

/-- Python truthiness test `not x` for an optional string: true when the
value is absent or empty. -/
def pyFalsyStr (a : Option String) : Bool :=
  match a with
  | some v => v = ""
  | none => true

/-- `FirebaseTokenValidator.validate_token`.  `firebaseInitialized` models
`firebase_config.is_initialized()`; `r` models the provider verdict on the
presented token string.  The error value is the message of the `ValueError`
that escapes: provider rejections are re-raised with a typed message; the
domain and verified-email messages pass through the generic handler
unchanged; the two missing-field messages are wrapped in
"Token validation failed: ...". -/
def validate_token (s : Settings) (firebaseInitialized : Bool)
    (r : FirebaseResult) : Except String UserInfo :=
  if s.DEBUG && !firebaseInitialized then .ok mockUserInfo
  else
    match r with
    | .invalidTok m => .error ("Invalid Firebase token: " ++ m)
    | .expiredTok m => .error ("Expired Firebase token: " ++ m)
    | .revokedTok m => .error ("Revoked Firebase token: " ++ m)
    | .decoded d =>
      if pyFalsyStr d.uid then
        .error "Token validation failed: Token does not contain user ID"
      else if pyFalsyStr d.email then
        .error "Token validation failed: Token does not contain email"
      else if !(d.email_verified.getD false) then
        .error "Email address is not verified"
      else if !(s.is_allowed_domain (d.email.getD "")) then
        .error ("Email domain not allowed. Must be from " ++ ALLOWED_EMAIL_DOMAIN)
      else
        .ok { uid := d.uid.getD "", email := d.email.getD "",
              name := pyOrStr d.name d.display_name, picture := d.picture,
              email_verified := d.email_verified.getD false }

/-! ## Exchange and refresh routes (`src/backend/api/auth_routes.py`) -/

/-- The error-code classification of `exchange_firebase_token`'s `ValueError`
handler: substring matching on the lower-cased message. -/
def classifyExchangeError (msg : String) : String :=
  let m := pyLower msg
  if strContains m "invalid" || strContains m "expired" ||
     strContains m "revoked" || strContains m "malformed" then "INVALID_TOKEN"
  else if strContains m "domain not allowed" || strContains m "not verified" then
    "UNAUTHORIZED"
  else if strContains m "access denied" then "FORBIDDEN"
  else "BAD_REQUEST"

/-- The successful payload of the exchange and refresh routes. -/
structure TokenData where
  jwt_token : Token
  user : UserWithRole
  expires_at : Int
  deriving DecidableEq

/-- `exchange_firebase_token`: validate, resolve role, issue; a `ValueError`
is mapped to an error code by `classifyExchangeError`. -/
def exchange_firebase_token (s : Settings) (firebaseInitialized : Bool)
    (r : FirebaseResult) (now : Int) : Except String TokenData :=
  match validate_token s firebaseInitialized r with
  | .error msg => .error (classifyExchangeError msg)
  | .ok user_info =>
    let user_with_role := create_user_with_role s user_info
    let tokExp := create_access_token s user_with_role now
    .ok { jwt_token := tokExp.1, user := user_with_role, expires_at := tokExp.2 }

/-- `refresh_token` route: verify the presented token, rebuild the user from
the verified claims (no provider contact), and issue a fresh token
unconditionally. -/
def refresh_token (s : Settings) (tok : Token) (now : Int) :
    Except TokenError TokenData :=
  match verify_access_token s tok now with
  | .error e => .error e
  | .ok p =>
    let user_with_role : UserWithRole :=
      { uid := p.sub.getD "", email := p.email.getD "", name := p.name,
        picture := none, email_verified := true, role := p.role.getD "",
        permissions := p.permissions.getD [] }
    let tokExp := create_access_token s user_with_role now
    .ok { jwt_token := tokExp.1, user := user_with_role, expires_at := tokExp.2 }

/-! ## Helper lemmas about the string model -/

theorem pyCharLower_eq_self (c : Char) (h : ¬(65 ≤ c.toNat ∧ c.toNat ≤ 90)) :
    pyCharLower c = c := by
  unfold pyCharLower
  rw [if_neg h]

theorem pyCharLower_toNat (c : Char) (h : 65 ≤ c.toNat ∧ c.toNat ≤ 90) :
    (pyCharLower c).toNat = c.toNat + 32 := by
  unfold pyCharLower
  rw [if_pos h]
  have hv : (c.toNat + 32).isValidChar := Or.inl (by omega)
  rw [Char.ofNat, dif_pos hv]
  rfl

theorem pyCharLower_not_upper (c : Char) :
    ¬(65 ≤ (pyCharLower c).toNat ∧ (pyCharLower c).toNat ≤ 90) := by
  by_cases h : 65 ≤ c.toNat ∧ c.toNat ≤ 90
  · rw [pyCharLower_toNat c h]
    omega
  · rw [pyCharLower_eq_self c h]
    exact h

theorem pyCharLower_idem (c : Char) : pyCharLower (pyCharLower c) = pyCharLower c :=
  pyCharLower_eq_self (pyCharLower c) (pyCharLower_not_upper c)

theorem pyLower_idem (s : String) : pyLower (pyLower s) = pyLower s := by
  show String.mk ((s.data.map pyCharLower).map pyCharLower) = String.mk (s.data.map pyCharLower)
  rw [List.map_map]
  congr 1
  exact List.map_congr_left fun c _ => pyCharLower_idem c

theorem beginsWith_nil (l : List Char) : beginsWith l [] = true := by
  cases l <;> rfl

theorem beginsWith_append_right (small : List Char) :
    ∀ l rest : List Char, beginsWith l small = true →
      beginsWith (l ++ rest) small = true := by
  induction small with
  | nil => intro l rest _; exact beginsWith_nil _
  | cons c cs ih =>
    intro l rest h
    cases l with
    | nil => simp [beginsWith] at h
    | cons b bs =>
      simp only [beginsWith, Bool.and_eq_true] at h
      simp only [List.cons_append, beginsWith, Bool.and_eq_true]
      exact ⟨h.1, ih bs rest h.2⟩

theorem containsSeq_of_begins (small big : List Char)
    (h : beginsWith big small = true) : containsSeq small big = true := by
  cases big with
  | nil => simpa [containsSeq] using h
  | cons b rest => simp [containsSeq, h]

theorem pyLower_append_data (a b : String) :
    (pyLower (a ++ b)).data = (pyLower a).data ++ (pyLower b).data := by
  show ((a ++ b).data.map pyCharLower) = _
  rw [String.data_append, List.map_append]
  rfl

theorem strContains_prepended (pre m key : String)
    (h : beginsWith (pyLower pre).data key.data = true) :
    strContains (pyLower (pre ++ m)) key = true := by
  unfold strContains
  rw [pyLower_append_data]
  exact containsSeq_of_begins _ _ (beginsWith_append_right _ _ _ h)

theorem classify_invalid_fb (m : String) :
    classifyExchangeError ("Invalid Firebase token: " ++ m) = "INVALID_TOKEN" := by
  have h := strContains_prepended "Invalid Firebase token: " m "invalid" (by decide)
  simp [classifyExchangeError, h]

theorem classify_expired_fb (m : String) :
    classifyExchangeError ("Expired Firebase token: " ++ m) = "INVALID_TOKEN" := by
  have h := strContains_prepended "Expired Firebase token: " m "expired" (by decide)
  simp [classifyExchangeError, h]

theorem classify_revoked_fb (m : String) :
    classifyExchangeError ("Revoked Firebase token: " ++ m) = "INVALID_TOKEN" := by
  have h := strContains_prepended "Revoked Firebase token: " m "revoked" (by decide)
  simp [classifyExchangeError, h]

end InfoClass

deriving instance DecidableEq for Except

namespace InfoClass

/-! ## Claims -/

/-- C1: for every `UserWithRole` with non-empty uid and email, verifying the
token produced by `create_access_token` succeeds whenever verification
happens strictly before the token's expiry, and the returned claims
reproduce the user's subject id, email, role and permission list exactly. -/
theorem C1_issue_verify_roundtrip (s : Settings) (u : UserWithRole) (now t : Int)
    (hu : u.uid ≠ "") (he : u.email ≠ "")
    (ht : t < now + s.ACCESS_TOKEN_EXPIRE_HOURS * 3600) :
    ∃ p, verify_access_token s (create_access_token s u now).1 t = .ok p ∧
      p.sub = some u.uid ∧ p.email = some u.email ∧ p.role = some u.role ∧
      p.permissions = some u.permissions := by
  refine ⟨{ sub := some u.uid, email := some u.email, name := u.name,
            role := some u.role, permissions := some u.permissions,
            iat := some now, exp := some (now + s.ACCESS_TOKEN_EXPIRE_HOURS * 3600),
            iss := some "info-class-api" }, ?_, rfl, rfl, rfl, rfl⟩
  have hexp : ¬(now + s.ACCESS_TOKEN_EXPIRE_HOURS * 3600 ≤ t) := by omega
  simp [create_access_token, verify_access_token, jwtDecode, requiredClaimMissing, hexp]

/-- Witness for C1 at a concrete user, settings and times. -/
theorem C1_issue_verify_roundtrip_witness :
    ∃ p, verify_access_token { SECRET_KEY := "k" }
        (create_access_token { SECRET_KEY := "k" }
          { uid := "u1", email := "a@pocheonil.hs.kr", role := "student" } 0).1 100 = .ok p ∧
      p.sub = some "u1" ∧ p.email = some "a@pocheonil.hs.kr" ∧
      p.role = some "student" ∧ p.permissions = some [] :=
  C1_issue_verify_roundtrip { SECRET_KEY := "k" }
    { uid := "u1", email := "a@pocheonil.hs.kr", role := "student" } 0 100
    (by decide) (by decide) (by decide)

/-- C2 counterexample: a token carrying an expiry of 0 but signed under a key
other than the configured secret.  At time 0 (so `now ≥ expiresAt`) `verify`
does not fail with the expired-token error: the signature is checked first,
so it fails with an invalid-token error instead. -/
theorem C2_counterexample :
    get_token_expiration (Token.signed { exp := some 0 } "other-key") = some 0 ∧
    (0 : Int) ≥ 0 ∧
    verify_access_token { SECRET_KEY := "secret" }
        (Token.signed { exp := some 0 } "other-key") 0
      = .error (.invalid "Invalid token: Signature verification failed") ∧
    verify_access_token { SECRET_KEY := "secret" }
        (Token.signed { exp := some 0 } "other-key") 0
      ≠ .error .expired := by
  decide

/-- C2 (amended): the issued token's expiry equals its issued-at plus the
configured lifetime in hours, and its unverified expiry reads back the same
value; for a token signed under the configured secret carrying expiry `e`,
`verify` fails with the expired-token error whenever `now ≥ e`, and succeeds
for any `now < e` when the required claims are present and the issuer claim
is the expected constant. -/
theorem C2_expiry (s : Settings) (u : UserWithRole) (now t e : Int) (p : PayloadDict) :
    (create_access_token s u now).2 = now + s.ACCESS_TOKEN_EXPIRE_HOURS * 3600 ∧
    get_token_expiration (create_access_token s u now).1 =
      some ((create_access_token s u now).2) ∧
    (p.exp = some e → e ≤ t →
      verify_access_token s (.signed p s.SECRET_KEY) t = .error .expired) ∧
    (p.exp = some e → t < e → requiredClaimMissing p = none →
      p.iss = some "info-class-api" →
      verify_access_token s (.signed p s.SECRET_KEY) t = .ok p) := by
  refine ⟨rfl, rfl, ?_, ?_⟩
  · intro hexp hle
    simp [verify_access_token, jwtDecode, hexp, hle]
  · intro hexp hlt hreq hiss
    have hnle : ¬(e ≤ t) := by omega
    simp [verify_access_token, jwtDecode, hexp, hnle, hreq, hiss]

/-- Witness for C2 at concrete inputs: both the expired branch and the
successful branch of the amended statement. -/
theorem C2_expiry_witness :
    verify_access_token { SECRET_KEY := "k" }
        (.signed { sub := some "u", email := some "e@x", role := some "admin",
                   iat := some 0, exp := some 3600, iss := some "info-class-api" }
          ({ SECRET_KEY := "k" } : Settings).SECRET_KEY) 5000 = .error .expired ∧
    verify_access_token { SECRET_KEY := "k" }
        (.signed { sub := some "u", email := some "e@x", role := some "admin",
                   iat := some 0, exp := some 3600, iss := some "info-class-api" }
          ({ SECRET_KEY := "k" } : Settings).SECRET_KEY) 100
      = .ok { sub := some "u", email := some "e@x", role := some "admin",
              iat := some 0, exp := some 3600, iss := some "info-class-api" } :=
  ⟨(C2_expiry { SECRET_KEY := "k" } { uid := "u", email := "e@x", role := "admin" } 0 5000 3600
      { sub := some "u", email := some "e@x", role := some "admin",
        iat := some 0, exp := some 3600, iss := some "info-class-api" }).2.2.1
      rfl (by decide),
   (C2_expiry { SECRET_KEY := "k" } { uid := "u", email := "e@x", role := "admin" } 0 100 3600
      { sub := some "u", email := some "e@x", role := some "admin",
        iat := some 0, exp := some 3600, iss := some "info-class-api" }).2.2.2
      rfl (by decide) (by decide) rfl⟩

theorem requiredClaimMissing_none_iff (p : PayloadDict) :
    requiredClaimMissing p = none ↔
      (p.sub.isSome = true ∧ p.email.isSome = true ∧ p.role.isSome = true ∧
       p.exp.isSome = true ∧ p.iat.isSome = true) := by
  rcases p with ⟨sub, email, name, role, perms, iat, exp, iss⟩
  cases sub <;> cases email <;> cases role <;> cases exp <;> cases iat <;>
    simp [requiredClaimMissing]

theorem verify_ok_shape (s : Settings) (p : PayloadDict) (now : Int) (q : PayloadDict)
    (h : verify_access_token s (.signed p s.SECRET_KEY) now = .ok q) :
    requiredClaimMissing p = none ∧ p.iss = some "info-class-api" ∧ q = p := by
  unfold verify_access_token jwtDecode at h
  simp only [] at h
  rw [if_neg (by simp : ¬s.SECRET_KEY ≠ s.SECRET_KEY)] at h
  cases hexp : p.exp with
  | none =>
    rw [hexp] at h
    simp only [] at h
    cases hreq : requiredClaimMissing p with
    | some c => rw [hreq] at h; simp at h
    | none =>
      rw [hreq] at h
      simp only [] at h
      by_cases hiss : p.iss = some "info-class-api"
      · refine ⟨rfl, hiss, ?_⟩
        rw [if_neg (by simp [hiss])] at h
        simpa using h.symm
      · rw [if_pos (by simpa using hiss)] at h
        simp at h
  | some e =>
    rw [hexp] at h
    simp only [] at h
    by_cases hle : e ≤ now
    · rw [if_pos hle] at h; simp at h
    · rw [if_neg hle] at h
      simp only [] at h
      cases hreq : requiredClaimMissing p with
      | some c => rw [hreq] at h; simp at h
      | none =>
        rw [hreq] at h
        simp only [] at h
        by_cases hiss : p.iss = some "info-class-api"
        · refine ⟨rfl, hiss, ?_⟩
          rw [if_neg (by simp [hiss])] at h
          simpa using h.symm
        · rw [if_pos (by simpa using hiss)] at h
          simp at h

/-- C3: for every token whose signature is valid (signed under the configured
secret), `verify` rejects it when any of the five claims sub, email, role,
exp, iat is absent, rejects it when the issuer claim differs from
"info-class-api", and succeeds only when all five claims are present and the
issuer equals that constant. -/
theorem C3_required_claims (s : Settings) (p : PayloadDict) (now : Int) :
    ((p.sub = none ∨ p.email = none ∨ p.role = none ∨ p.exp = none ∨ p.iat = none) →
      ∃ err, verify_access_token s (.signed p s.SECRET_KEY) now = .error err) ∧
    (p.iss ≠ some "info-class-api" →
      ∃ err, verify_access_token s (.signed p s.SECRET_KEY) now = .error err) ∧
    (∀ q, verify_access_token s (.signed p s.SECRET_KEY) now = .ok q →
      p.sub.isSome = true ∧ p.email.isSome = true ∧ p.role.isSome = true ∧
      p.exp.isSome = true ∧ p.iat.isSome = true ∧ p.iss = some "info-class-api") := by
  refine ⟨?_, ?_, ?_⟩
  · intro hmiss
    cases hv : verify_access_token s (.signed p s.SECRET_KEY) now with
    | error err => exact ⟨err, rfl⟩
    | ok q =>
      exfalso
      have hshape := verify_ok_shape s p now q hv
      have hpres := (requiredClaimMissing_none_iff p).mp hshape.1
      rcases hmiss with h | h | h | h | h <;> rw [h] at hpres <;> simp at hpres
  · intro hiss
    cases hv : verify_access_token s (.signed p s.SECRET_KEY) now with
    | error err => exact ⟨err, rfl⟩
    | ok q => exact absurd (verify_ok_shape s p now q hv).2.1 hiss
  · intro q hv
    have hshape := verify_ok_shape s p now q hv
    have hpres := (requiredClaimMissing_none_iff p).mp hshape.1
    exact ⟨hpres.1, hpres.2.1, hpres.2.2.1, hpres.2.2.2.1, hpres.2.2.2.2, hshape.2.1⟩

/-- Witness for C3 at a concrete payload missing the email claim and carrying
a wrong issuer. -/
theorem C3_required_claims_witness :
    (∃ err, verify_access_token { SECRET_KEY := "k" }
      (.signed { sub := some "u", role := some "admin", iat := some 0,
                 exp := some 10, iss := some "someone-else" }
        ({ SECRET_KEY := "k" } : Settings).SECRET_KEY) 0 = .error err) :=
  (C3_required_claims { SECRET_KEY := "k" }
    { sub := some "u", role := some "admin", iat := some 0,
      exp := some 10, iss := some "someone-else" } 0).1
    (Or.inr (Or.inl rfl))

/-- C4: role resolution is total and case-split exactly as the claim states:
admin-list membership of the lower-cased email (checked case-insensitively)
gives Admin; otherwise a domain match gives Student; otherwise Guest.  The
three cases are exhaustive, and the fixed permission lists have 7, 4 and 1
entries. -/
theorem C4_role_resolution (s : Settings) (u : UserInfo) :
    (s.is_admin_email (pyLower u.email) = true →
      determine_user_role s u = UserRole.ADMIN) ∧
    (s.is_admin_email (pyLower u.email) = false →
      s.is_allowed_domain (pyLower u.email) = true →
      determine_user_role s u = UserRole.STUDENT) ∧
    (s.is_admin_email (pyLower u.email) = false →
      s.is_allowed_domain (pyLower u.email) = false →
      determine_user_role s u = UserRole.GUEST) ∧
    (determine_user_role s u = UserRole.ADMIN ∨
      determine_user_role s u = UserRole.STUDENT ∨
      determine_user_role s u = UserRole.GUEST) ∧
    (get_role_permissions UserRole.ADMIN).length = 7 ∧
    (get_role_permissions UserRole.STUDENT).length = 4 ∧
    (get_role_permissions UserRole.GUEST).length = 1 := by
  refine ⟨?_, ?_, ?_, ?_, by decide, by decide, by decide⟩
  · intro ha
    simp [determine_user_role, ha]
  · intro ha hd
    simp [determine_user_role, ha, hd]
  · intro ha hd
    simp [determine_user_role, ha, hd]
  · unfold determine_user_role
    by_cases ha : s.is_admin_email (pyLower u.email)
    · simp [ha]
    · by_cases hd : s.is_allowed_domain (pyLower u.email)
      · simp [ha, hd]
      · simp [ha, hd]

/-- Witness for C4: the default admin address resolves to Admin, a student
address on the school domain to Student, an outside address to Guest. -/
theorem C4_role_resolution_witness :
    determine_user_role { SECRET_KEY := "k" } { uid := "u1", email := "Admin@Pocheonil.HS.KR" }
      = UserRole.ADMIN ∧
    determine_user_role { SECRET_KEY := "k" } { uid := "u2", email := "kid@pocheonil.hs.kr" }
      = UserRole.STUDENT ∧
    determine_user_role { SECRET_KEY := "k" } { uid := "u3", email := "x@other.example" }
      = UserRole.GUEST :=
  ⟨(C4_role_resolution { SECRET_KEY := "k" } { uid := "u1", email := "Admin@Pocheonil.HS.KR" }).1
      (by decide),
   (C4_role_resolution { SECRET_KEY := "k" } { uid := "u2", email := "kid@pocheonil.hs.kr" }).2.1
      (by decide) (by decide),
   (C4_role_resolution { SECRET_KEY := "k" } { uid := "u3", email := "x@other.example" }).2.2.1
      (by decide) (by decide)⟩

theorem classify_missing_uid :
    classifyExchangeError "Token validation failed: Token does not contain user ID"
      = "BAD_REQUEST" := by decide

theorem classify_missing_email :
    classifyExchangeError "Token validation failed: Token does not contain email"
      = "BAD_REQUEST" := by decide

theorem classify_unverified :
    classifyExchangeError "Email address is not verified" = "UNAUTHORIZED" := by decide

theorem classify_bad_domain :
    classifyExchangeError ("Email domain not allowed. Must be from " ++ ALLOWED_EMAIL_DOMAIN)
      = "UNAUTHORIZED" := by decide

/-- C5 counterexample: a decoded token that lacks the subject id.  The claim
says `validate` then fails with an Unauthorized-kind error, but the wrapped
message "Token validation failed: Token does not contain user ID" matches
neither phrase list of the route's classifier, so the exchange fails with
the generic BAD_REQUEST kind instead. -/
theorem C5_counterexample :
    validate_token { SECRET_KEY := "k" } true
        (.decoded { email := some "x@pocheonil.hs.kr", email_verified := some true })
      = .error "Token validation failed: Token does not contain user ID" ∧
    exchange_firebase_token { SECRET_KEY := "k" } true
        (.decoded { email := some "x@pocheonil.hs.kr", email_verified := some true }) 0
      = .error "BAD_REQUEST" ∧
    "BAD_REQUEST" ≠ "UNAUTHORIZED" := by decide

/-- C5 (amended): outside the development bypass, the exchange fails with the
InvalidToken kind exactly when the provider rejects the raw token as
malformed, expired or revoked, and fails with the Unauthorized kind exactly
when the decoded token has a subject id and email but an unverified email or
a non-matching domain; a decoded token lacking subject id or email fails
with the generic BadRequest kind (its wrapped message matches neither phrase
list).  The three policy checks run in order: required fields, then the
verified flag, then the domain. -/
theorem C5_validation_errors (s : Settings) (b : Bool) (r : FirebaseResult) (now : Int)
    (hdbg : s.DEBUG = false) :
    (∀ m, r = .invalidTok m ∨ r = .expiredTok m ∨ r = .revokedTok m →
      exchange_firebase_token s b r now = .error "INVALID_TOKEN") ∧
    (exchange_firebase_token s b r now = .error "INVALID_TOKEN" →
      ∃ m, r = .invalidTok m ∨ r = .expiredTok m ∨ r = .revokedTok m) ∧
    (exchange_firebase_token s b r now = .error "UNAUTHORIZED" ↔
      ∃ d, r = .decoded d ∧ pyFalsyStr d.uid = false ∧ pyFalsyStr d.email = false ∧
        (d.email_verified.getD false = false ∨
          (d.email_verified.getD false = true ∧
            s.is_allowed_domain (d.email.getD "") = false))) ∧
    (∀ d, r = .decoded d →
      (pyFalsyStr d.uid = true → exchange_firebase_token s b r now = .error "BAD_REQUEST" ∧
        validate_token s b r = .error "Token validation failed: Token does not contain user ID") ∧
      (pyFalsyStr d.uid = false → pyFalsyStr d.email = true →
        exchange_firebase_token s b r now = .error "BAD_REQUEST" ∧
        validate_token s b r = .error "Token validation failed: Token does not contain email") ∧
      (pyFalsyStr d.uid = false → pyFalsyStr d.email = false →
        d.email_verified.getD false = false →
        validate_token s b r = .error "Email address is not verified") ∧
      (pyFalsyStr d.uid = false → pyFalsyStr d.email = false →
        d.email_verified.getD false = true →
        s.is_allowed_domain (d.email.getD "") = false →
        validate_token s b r =
          .error ("Email domain not allowed. Must be from " ++ ALLOWED_EMAIL_DOMAIN))) := by
  have hbyp : (s.DEBUG && !b) = false := by rw [hdbg]; rfl
  refine ⟨?_, ?_, ?_, ?_⟩
  · intro m hm
    rcases hm with rfl | rfl | rfl
    · simp [exchange_firebase_token, validate_token, hbyp, classify_invalid_fb]
    · simp [exchange_firebase_token, validate_token, hbyp, classify_expired_fb]
    · simp [exchange_firebase_token, validate_token, hbyp, classify_revoked_fb]
  · intro h
    cases r with
    | invalidTok m => exact ⟨m, Or.inl rfl⟩
    | expiredTok m => exact ⟨m, Or.inr (Or.inl rfl)⟩
    | revokedTok m => exact ⟨m, Or.inr (Or.inr rfl)⟩
    | decoded d =>
      exfalso
      by_cases hu : pyFalsyStr d.uid
      · simp [exchange_firebase_token, validate_token, hbyp, hu, classify_missing_uid] at h
      · by_cases he : pyFalsyStr d.email
        · simp [exchange_firebase_token, validate_token, hbyp, hu, he,
            classify_missing_email] at h
        · by_cases hv : d.email_verified.getD false
          · by_cases hd : s.is_allowed_domain (d.email.getD "")
            · simp [exchange_firebase_token, validate_token, hbyp, hu, he, hv, hd] at h
            · simp [exchange_firebase_token, validate_token, hbyp, hu, he, hv, hd,
                classify_bad_domain] at h
          · simp [exchange_firebase_token, validate_token, hbyp, hu, he, hv,
              classify_unverified] at h
  · constructor
    · intro h
      cases r with
      | invalidTok m =>
        simp [exchange_firebase_token, validate_token, hbyp, classify_invalid_fb] at h
      | expiredTok m =>
        simp [exchange_firebase_token, validate_token, hbyp, classify_expired_fb] at h
      | revokedTok m =>
        simp [exchange_firebase_token, validate_token, hbyp, classify_revoked_fb] at h
      | decoded d =>
        refine ⟨d, rfl, ?_⟩
        by_cases hu : pyFalsyStr d.uid
        · simp [exchange_firebase_token, validate_token, hbyp, hu, classify_missing_uid] at h
        · by_cases he : pyFalsyStr d.email
          · simp [exchange_firebase_token, validate_token, hbyp, hu, he,
              classify_missing_email] at h
          · by_cases hv : d.email_verified.getD false
            · by_cases hd : s.is_allowed_domain (d.email.getD "")
              · simp [exchange_firebase_token, validate_token, hbyp, hu, he, hv, hd] at h
              · exact ⟨by simpa using hu, by simpa using he, Or.inr ⟨hv, by simpa using hd⟩⟩
            · exact ⟨by simpa using hu, by simpa using he, Or.inl (by simpa using hv)⟩
    · rintro ⟨d, rfl, hu, he, hcase⟩
      rcases hcase with hv | ⟨hv, hd⟩
      · simp [exchange_firebase_token, validate_token, hbyp, hu, he, hv, classify_unverified]
      · simp [exchange_firebase_token, validate_token, hbyp, hu, he, hv, hd, classify_bad_domain]
  · rintro d rfl
    refine ⟨?_, ?_, ?_, ?_⟩
    · intro hu
      exact ⟨by simp [exchange_firebase_token, validate_token, hbyp, hu, classify_missing_uid],
             by simp [validate_token, hbyp, hu]⟩
    · intro hu he
      exact ⟨by simp [exchange_firebase_token, validate_token, hbyp, hu, he,
               classify_missing_email],
             by simp [validate_token, hbyp, hu, he]⟩
    · intro hu he hv
      simp [validate_token, hbyp, hu, he, hv]
    · intro hu he hv hd
      simp [validate_token, hbyp, hu, he, hv, hd]

/-- Witness for C5 at concrete inputs: a provider-rejected token maps to
INVALID_TOKEN, and an unverified decoded token maps to UNAUTHORIZED. -/
theorem C5_validation_errors_witness :
    exchange_firebase_token { SECRET_KEY := "k" } true (.invalidTok "bad") 0
      = .error "INVALID_TOKEN" ∧
    exchange_firebase_token { SECRET_KEY := "k" } true
        (.decoded { uid := some "u", email := some "x@pocheonil.hs.kr",
                    email_verified := some false }) 0
      = .error "UNAUTHORIZED" :=
  ⟨(C5_validation_errors { SECRET_KEY := "k" } true (.invalidTok "bad") 0 rfl).1
      "bad" (Or.inl rfl),
   (C5_validation_errors { SECRET_KEY := "k" } true
      (.decoded { uid := some "u", email := some "x@pocheonil.hs.kr",
                  email_verified := some false }) 0 rfl).2.2.1.mpr
      ⟨{ uid := some "u", email := some "x@pocheonil.hs.kr", email_verified := some false },
        rfl, by decide, by decide, Or.inl (by decide)⟩⟩

/-- C6: outside the development bypass, a decoded token with subject id and
email present but `email_verified = false` makes `validate` fail with the
unverified-email error, regardless of the domain of the email and of the
admin list, and the exchange returns an error (so role resolution and token
issuance are never reached). -/
theorem C6_unverified_email (s : Settings) (b : Bool) (d : DecodedToken) (now : Int)
    (hdbg : s.DEBUG = false)
    (hu : pyFalsyStr d.uid = false) (he : pyFalsyStr d.email = false)
    (hv : d.email_verified.getD false = false) :
    validate_token s b (.decoded d) = .error "Email address is not verified" ∧
    exchange_firebase_token s b (.decoded d) now = .error "UNAUTHORIZED" ∧
    ∀ td, exchange_firebase_token s b (.decoded d) now ≠ .ok td := by
  have hbyp : (s.DEBUG && !b) = false := by rw [hdbg]; rfl
  have h1 : validate_token s b (.decoded d) = .error "Email address is not verified" := by
    simp [validate_token, hbyp, hu, he, hv]
  refine ⟨h1, ?_, ?_⟩
  · simp [exchange_firebase_token, h1, classify_unverified]
  · intro td
    simp [exchange_firebase_token, h1]

/-- Witness for C6: an unverified admin-listed, domain-matching address still
fails and no token is issued. -/
theorem C6_unverified_email_witness :
    validate_token { SECRET_KEY := "k" } true
        (.decoded { uid := some "u", email := some "admin@pocheonil.hs.kr",
                    email_verified := some false })
      = .error "Email address is not verified" ∧
    exchange_firebase_token { SECRET_KEY := "k" } true
        (.decoded { uid := some "u", email := some "admin@pocheonil.hs.kr",
                    email_verified := some false }) 0 = .error "UNAUTHORIZED" :=
  ⟨(C6_unverified_email { SECRET_KEY := "k" } true
      { uid := some "u", email := some "admin@pocheonil.hs.kr",
        email_verified := some false } 0 rfl (by decide) (by decide) (by decide)).1,
   (C6_unverified_email { SECRET_KEY := "k" } true
      { uid := some "u", email := some "admin@pocheonil.hs.kr",
        email_verified := some false } 0 rfl (by decide) (by decide) (by decide)).2.1⟩

/-- The user reconstructed from verified claims by the refresh route. -/
def userFromClaims (p : PayloadDict) : UserWithRole :=
  { uid := p.sub.getD "", email := p.email.getD "", name := p.name,
    picture := none, email_verified := true, role := p.role.getD "",
    permissions := p.permissions.getD [] }

/-- C7: refresh first runs the full verification; a verification error (in
particular an expired token) propagates and no token is issued, while a
verifying token unconditionally yields a freshly issued token built from the
verified claims — no staleness threshold and no provider contact. -/
theorem C7_refresh_route (s : Settings) (tok : Token) (now : Int) :
    (∀ e, verify_access_token s tok now = .error e →
      refresh_token s tok now = .error e ∧
      ∀ td, refresh_token s tok now ≠ .ok td) ∧
    (∀ p, verify_access_token s tok now = .ok p →
      refresh_token s tok now =
        .ok { jwt_token := (create_access_token s (userFromClaims p) now).1,
              user := userFromClaims p,
              expires_at := (create_access_token s (userFromClaims p) now).2 }) := by
  constructor
  · intro e he
    constructor
    · simp [refresh_token, he]
    · intro td
      simp [refresh_token, he]
  · intro p hp
    simp [refresh_token, hp, userFromClaims]

/-- Witness for C7: refresh of an expired token fails with the expired error,
and refresh of a live token issues a new one. -/
theorem C7_refresh_route_witness :
    refresh_token { SECRET_KEY := "k" }
        (.signed { sub := some "u", email := some "e@x", role := some "admin",
                   iat := some 0, exp := some 3600, iss := some "info-class-api" } "k") 5000
      = .error .expired ∧
    refresh_token { SECRET_KEY := "k" }
        (.signed { sub := some "u", email := some "e@x", role := some "admin",
                   iat := some 0, exp := some 3600, iss := some "info-class-api" } "k") 100
      = .ok { jwt_token := (create_access_token { SECRET_KEY := "k" }
                (userFromClaims { sub := some "u", email := some "e@x", role := some "admin",
                                  iat := some 0, exp := some 3600,
                                  iss := some "info-class-api" }) 100).1,
              user := userFromClaims { sub := some "u", email := some "e@x",
                                       role := some "admin", iat := some 0, exp := some 3600,
                                       iss := some "info-class-api" },
              expires_at := (create_access_token { SECRET_KEY := "k" }
                (userFromClaims { sub := some "u", email := some "e@x", role := some "admin",
                                  iat := some 0, exp := some 3600,
                                  iss := some "info-class-api" }) 100).2 } :=
  ⟨((C7_refresh_route { SECRET_KEY := "k" }
      (.signed { sub := some "u", email := some "e@x", role := some "admin",
                 iat := some 0, exp := some 3600, iss := some "info-class-api" } "k") 5000).1
      .expired (by decide)).1,
   (C7_refresh_route { SECRET_KEY := "k" }
      (.signed { sub := some "u", email := some "e@x", role := some "admin",
                 iat := some 0, exp := some 3600, iss := some "info-class-api" } "k") 100).2
      { sub := some "u", email := some "e@x", role := some "admin",
        iat := some 0, exp := some 3600, iss := some "info-class-api" } (by decide)⟩

/-- C8: the conditional refresh issues a brand-new token (fresh issued-at and
expiry) exactly when the unverified expiry of the presented token is within
the threshold of the current time, and returns none both when the remaining
lifetime exceeds the threshold and when no expiry can be extracted. -/
theorem C8_refresh_if_needed (s : Settings) (tok : Token) (u : UserWithRole)
    (now thr : Int) :
    (get_token_expiration tok = none →
      refresh_token_if_needed s tok u now thr = none) ∧
    (∀ e, get_token_expiration tok = some e →
      (e - now ≤ thr * 3600 →
        refresh_token_if_needed s tok u now thr = some (create_access_token s u now)) ∧
      (thr * 3600 < e - now →
        refresh_token_if_needed s tok u now thr = none)) := by
  constructor
  · intro h
    simp [refresh_token_if_needed, h]
  · intro e he
    constructor
    · intro hle
      have h2 : e ≤ now + thr * 3600 := by omega
      simp [refresh_token_if_needed, he, h2]
    · intro hgt
      have h2 : ¬(e ≤ now + thr * 3600) := by omega
      simp [refresh_token_if_needed, he, h2]

/-- Witness for C8: a token expiring in one hour is refreshed against a
two-hour threshold, and is not refreshed against a half-hour threshold
(3600 - 0 > 1800); a malformed token is never refreshed. -/
theorem C8_refresh_if_needed_witness :
    refresh_token_if_needed { SECRET_KEY := "k" } (.signed { exp := some 3600 } "any")
        { uid := "u", email := "e@x", role := "admin" } 0 2
      = some (create_access_token { SECRET_KEY := "k" }
          { uid := "u", email := "e@x", role := "admin" } 0) ∧
    refresh_token_if_needed { SECRET_KEY := "k" } (.signed { exp := some 7200 } "any")
        { uid := "u", email := "e@x", role := "admin" } 0 1
      = none ∧
    refresh_token_if_needed { SECRET_KEY := "k" } .malformed
        { uid := "u", email := "e@x", role := "admin" } 0 2 = none :=
  ⟨((C8_refresh_if_needed { SECRET_KEY := "k" } (.signed { exp := some 3600 } "any")
      { uid := "u", email := "e@x", role := "admin" } 0 2).2 3600 rfl).1 (by decide),
   ((C8_refresh_if_needed { SECRET_KEY := "k" } (.signed { exp := some 7200 } "any")
      { uid := "u", email := "e@x", role := "admin" } 0 1).2 7200 rfl).2 (by decide),
   (C8_refresh_if_needed { SECRET_KEY := "k" } .malformed
      { uid := "u", email := "e@x", role := "admin" } 0 2).1 rfl⟩

theorem remove_admin_email_found (e : String) :
    ∀ l : List String, (l.map pyLower).contains (pyLower e) = true →
      (remove_admin_email l e).2 = true ∧
      (remove_admin_email l e).1.length + 1 = l.length := by
  intro l
  induction l with
  | nil => intro h; simp at h
  | cons a rest ih =>
    intro h
    by_cases hae : pyLower a = pyLower e
    · simp [remove_admin_email, hae]
    · have hmem : pyLower e = pyLower a ∨ pyLower e ∈ rest.map pyLower := by simpa using h
      have h' : (rest.map pyLower).contains (pyLower e) = true := by
        rcases hmem with h1 | h1
        · exact absurd h1.symm hae
        · simpa using h1
      have hr := ih h'
      refine ⟨?_, ?_⟩
      · simp [remove_admin_email, hae, hr.1]
      · simp only [remove_admin_email, if_neg hae, List.length_cons]
        omega

theorem remove_admin_email_absent (e : String) :
    ∀ l : List String, (l.map pyLower).contains (pyLower e) = false →
      remove_admin_email l e = (l, false) := by
  intro l
  induction l with
  | nil => intro _; rfl
  | cons a rest ih =>
    intro h
    have hh : ¬pyLower e = pyLower a ∧ pyLower e ∉ rest.map pyLower := by
      simpa [not_or] using h
    have h' : (rest.map pyLower).contains (pyLower e) = false := by simpa using hh.2
    unfold remove_admin_email
    rw [if_neg (fun hc => hh.1 hc.symm)]
    rw [ih h']

/-- C9: the runtime admin-list operations are case-insensitive: adding an
email already present under case-insensitive comparison leaves the list
unchanged; removing a present email removes one entry and reports true;
removing an absent email leaves the list unchanged and reports false; and
after adding an email, membership testing succeeds for any casing of it. -/
theorem C9_admin_list_ops (l : List String) (e eAlt : String) :
    ((l.map pyLower).contains (pyLower e) = true → add_admin_email l e = l) ∧
    ((l.map pyLower).contains (pyLower e) = true →
      (remove_admin_email l e).2 = true ∧
      (remove_admin_email l e).1.length + 1 = l.length) ∧
    ((l.map pyLower).contains (pyLower e) = false →
      remove_admin_email l e = (l, false)) ∧
    (∀ s : Settings, s.ADMIN_EMAILS = add_admin_email l e → pyLower eAlt = pyLower e →
      s.is_admin_email eAlt = true) := by
  refine ⟨?_, remove_admin_email_found e l, remove_admin_email_absent e l, ?_⟩
  · intro h
    unfold add_admin_email
    rw [if_pos h]
  · intro s hs hcase
    unfold Settings.is_admin_email
    rw [hs, hcase]
    unfold add_admin_email
    by_cases h : (l.map pyLower).contains (pyLower e) = true
    · rw [if_pos h]
      exact h
    · rw [if_neg h, List.map_append]
      simp [pyLower_idem]

/-- Witness for C9 at concrete lists and casings. -/
theorem C9_admin_list_ops_witness :
    add_admin_email ["Admin@Pocheonil.hs.kr"] "ADMIN@pocheonil.HS.KR"
      = ["Admin@Pocheonil.hs.kr"] ∧
    (remove_admin_email ["Admin@Pocheonil.hs.kr"] "ADMIN@pocheonil.HS.KR").2 = true ∧
    remove_admin_email ["other@x"] "ADMIN@pocheonil.HS.KR" = (["other@x"], false) ∧
    Settings.is_admin_email
        { SECRET_KEY := "", ADMIN_EMAILS := add_admin_email [] "New@pocheonil.hs.kr" }
        "NEW@POCHEONIL.HS.KR" = true :=
  ⟨(C9_admin_list_ops ["Admin@Pocheonil.hs.kr"] "ADMIN@pocheonil.HS.KR" "x").1 (by decide),
   ((C9_admin_list_ops ["Admin@Pocheonil.hs.kr"] "ADMIN@pocheonil.HS.KR" "x").2.1
      (by decide)).1,
   (C9_admin_list_ops ["other@x"] "ADMIN@pocheonil.HS.KR" "x").2.2.1 (by decide),
   (C9_admin_list_ops [] "New@pocheonil.hs.kr" "NEW@POCHEONIL.HS.KR").2.2.2
      { SECRET_KEY := "", ADMIN_EMAILS := add_admin_email [] "New@pocheonil.hs.kr" }
      rfl (by decide)⟩

/-- C10: with the DEBUG flag set and the Firebase client not initialized,
`validate_token` ignores its input entirely and returns the fixed mock
identity (uid "dev_user_123", email "admin@pocheonil.hs.kr", verified), and
under the default admin list that identity resolves to the Admin role with
the 7-entry admin permission list. -/
theorem C10_debug_mock_bypass (s : Settings) (r : FirebaseResult)
    (hdbg : s.DEBUG = true) (ha : s.ADMIN_EMAILS = defaultAdminEmails) :
    validate_token s false r = .ok mockUserInfo ∧
    mockUserInfo.uid = "dev_user_123" ∧
    mockUserInfo.email = "admin@pocheonil.hs.kr" ∧
    mockUserInfo.email_verified = true ∧
    determine_user_role s mockUserInfo = UserRole.ADMIN ∧
    (create_user_with_role s mockUserInfo).role = "admin" ∧
    (create_user_with_role s mockUserInfo).permissions.length = 7 := by
  have hadm : s.is_admin_email (pyLower mockUserInfo.email) = true := by
    unfold Settings.is_admin_email
    rw [ha]
    decide
  refine ⟨?_, rfl, rfl, rfl, ?_, ?_, ?_⟩
  · simp [validate_token, hdbg]
  · simp [determine_user_role, hadm]
  · simp [create_user_with_role, determine_user_role, hadm, UserRole.ADMIN]
  · simp [create_user_with_role, determine_user_role, hadm]
    decide

/-- Witness for C10: garbage input in development mode still yields the mock
admin identity. -/
theorem C10_debug_mock_bypass_witness :
    validate_token { DEBUG := true, SECRET_KEY := "k" } false
        (.invalidTok "total garbage") = .ok mockUserInfo ∧
    determine_user_role { DEBUG := true, SECRET_KEY := "k" } mockUserInfo
      = UserRole.ADMIN :=
  ⟨(C10_debug_mock_bypass { DEBUG := true, SECRET_KEY := "k" }
      (.invalidTok "total garbage") rfl rfl).1,
   (C10_debug_mock_bypass { DEBUG := true, SECRET_KEY := "k" }
      (.invalidTok "total garbage") rfl rfl).2.2.2.2.1⟩

end InfoClass
